import Mathlib

/-!
Shallow embedding of `src/vrmcollector.py` (Victron VRM -> InfluxDB collector)
and verification of the specification's claims about it.

The program manipulates Python values produced by `json` decoding (dicts,
lists, strings, ints, floats, bools, None).  We model them by the inductive
type `JsonVal`; Python floats are modelled by exact rationals (every concrete
sample appearing in this development, e.g. 42.5, is exactly representable as
a binary double, so the model agrees with the program on them).
-/

namespace VRM

/-- A Python value as produced by `requests.Response.json()`: JSON null,
booleans, integers, floats (modelled as exact rationals), strings, lists and
dicts (modelled as association lists; `json.loads` never yields a dict with
duplicate keys, so lookup order is immaterial on the image of the decoder). -/
inductive JsonVal where
  | null : JsonVal
  | bool : Bool → JsonVal
  | int : Int → JsonVal
  | float : ℚ → JsonVal
  | str : String → JsonVal
  | arr : List JsonVal → JsonVal
  | obj : List (String × JsonVal) → JsonVal

/-- Python errors that the embedded code can raise. -/
inductive PyError where
  | typeError : PyError
  | attributeError : PyError
  | keyError : PyError
  | indexError : PyError
  | valueError : PyError
deriving DecidableEq, Repr

/-- Python truthiness (`bool(v)`): None, False, 0, 0.0, "", [] and \x7b\x7d are
falsy, everything else is truthy. -/
def pyTruthy : JsonVal → Bool
  | .null => false
  | .bool b => b
  | .int n => n != 0
  | .float q => q != 0
  | .str s => s != ""
  | .arr xs => !xs.isEmpty
  | .obj kvs => !kvs.isEmpty

/-- `v if pyTruthy v else d` — Python's `or` operator (`v or d`). -/
def pyOr (v d : JsonVal) : JsonVal :=
  if pyTruthy v then v else d

/-- `d.get(k)` on a dict `d`: the stored value, or Python `None` when the key
is absent.  (Python cannot distinguish an absent key from a stored `None`
through `.get`, and neither does this model.) -/
def pyGetOrNone (kvs : List (String × JsonVal)) (k : String) : JsonVal :=
  (kvs.lookup k).getD .null

/-- `v.get(k, d)` for an arbitrary Python value `v`: dicts answer the lookup
with default `d`; every other value lacks the `.get` attribute and raises
`AttributeError`. -/
def pyGetD (v : JsonVal) (k : String) (d : JsonVal) : Except PyError JsonVal :=
  match v with
  | .obj kvs => .ok ((kvs.lookup k).getD d)
  | _ => .error .attributeError

/-- `v.get(k)` (default `None`) for an arbitrary Python value. -/
def pyGet (v : JsonVal) (k : String) : Except PyError JsonVal :=
  pyGetD v k .null

/-- Decimal digits of `n`, most significant first; the first argument is
recursion fuel (`n + 1` always suffices). -/
def natDigits : ℕ → ℕ → List Char
  | 0, _ => []
  | fuel + 1, n =>
      if n = 0 then [] else natDigits fuel (n / 10) ++ [Char.ofNat (48 + n % 10)]

/-- Decimal rendering of a natural number. -/
def natStr (n : ℕ) : String :=
  if n = 0 then "0" else String.mk (natDigits (n + 1) n)

/-- Decimal rendering of an integer (Python `str` on an int). -/
def intStr (i : Int) : String :=
  (if i < 0 then "-" else "") ++ natStr i.natAbs

/-- The least `k ≤ 40` with `d ∣ 10 ^ k`, used to render decimal-exact
rationals. -/
def findPow10 (d : ℕ) : Option ℕ :=
  (List.range 41).find? (fun k => decide (d ∣ 10 ^ k))

/-- Rendering of a Python float, modelled on exact rationals: for values with
a finite decimal expansion this agrees with CPython's shortest round-tripping
`repr` (e.g. "42.5", "0.0"); other rationals (never produced by the decoder
in this development) fall back to a fraction rendering. -/
def floatStr (q : ℚ) : String :=
  match findPow10 q.den with
  | some 0 => intStr q.num ++ ".0"
  | some (k + 1) =>
      let m : ℕ := q.num.natAbs * ((10 ^ (k + 1)) / q.den)
      let ds := (natStr m).toList
      let ds := if ds.length < k + 2 then List.replicate (k + 2 - ds.length) '0' ++ ds else ds
      (if q.num < 0 then "-" else "") ++
        String.mk (ds.take (ds.length - (k + 1))) ++ "." ++
        String.mk (ds.drop (ds.length - (k + 1)))
  | none => intStr q.num ++ "/" ++ natStr q.den

mutual

/-- Python `repr(v)` (simplified: strings are always single-quoted and not
escaped; floats as in `floatStr`).  Only `pyStr` on scalars is exercised by
any theorem below. -/
def pyRepr : JsonVal → String
  | .null => "None"
  | .bool true => "True"
  | .bool false => "False"
  | .int n => intStr n
  | .float q => floatStr q
  | .str s => "'" ++ s ++ "'"
  | .arr xs => "[" ++ pyReprList xs ++ "]"
  | .obj kvs => "\x7b" ++ pyReprObj kvs ++ "\x7d"

/-- Comma-separated `repr`s of list elements. -/
def pyReprList : List JsonVal → String
  | [] => ""
  | [x] => pyRepr x
  | x :: y :: xs => pyRepr x ++ ", " ++ pyReprList (y :: xs)

/-- Comma-separated `repr`s of dict items. -/
def pyReprObj : List (String × JsonVal) → String
  | [] => ""
  | [(k, v)] => "'" ++ k ++ "': " ++ pyRepr v
  | (k, v) :: p :: kvs => "'" ++ k ++ "': " ++ pyRepr v ++ ", " ++ pyReprObj (p :: kvs)

end

/-- Python `str(v)`: identical to `repr` except on strings, which are
returned unquoted. -/
def pyStr : JsonVal → String
  | .str s => s
  | v => pyRepr v

/-- Python's `str.strip()` as used implicitly by `float`/`int` on strings:
drop surrounding whitespace.  (`Char.isWhitespace` covers space, tab, CR,
LF; Python also strips \f and \v — immaterial here.) -/
def stripWs (cs : List Char) : List Char :=
  ((cs.dropWhile Char.isWhitespace).reverse.dropWhile Char.isWhitespace).reverse

/-- Parse an optional sign, returning the sign and the rest. -/
def splitSign : List Char → Int × List Char
  | '-' :: cs => (-1, cs)
  | '+' :: cs => (1, cs)
  | cs => (1, cs)

/-- Numeric value of a digit string (caller checks the characters). -/
def digitsToNat (cs : List Char) : ℕ :=
  cs.foldl (fun a c => a * 10 + (c.toNat - 48)) 0

/-- Model of Python `float(s)` on a string: optional surrounding whitespace
and sign, digits with an optional fractional part and optional exponent.
(CPython additionally accepts "inf"/"nan" and underscores between digits;
those are omitted — no claim exercises string inputs to `float`.) -/
def parseDecimal (s : String) : Option ℚ :=
  let cs := stripWs s.toList
  let (sign, cs) := splitSign cs
  let (ip, cs) := cs.span Char.isDigit
  let (fp, cs) :=
    match cs with
    | '.' :: rest => rest.span Char.isDigit
    | _ => ([], cs)
  if ip.isEmpty && fp.isEmpty then none
  else
    let mantissa : ℚ := sign * ((digitsToNat ip : ℚ) + (digitsToNat fp : ℚ) / (10 ^ fp.length : ℚ))
    match cs with
    | [] => some mantissa
    | e :: rest =>
        if e == 'e' || e == 'E' then
          let (esign, rest) := splitSign rest
          let (ed, rest) := rest.span Char.isDigit
          if ed.isEmpty || !rest.isEmpty then none
          else some (mantissa * (10 : ℚ) ^ (esign * (digitsToNat ed : Int)))
        else none

/-- Model of Python `float(v)`: exact on ints and floats, booleans convert to
0/1, strings are parsed (`parseDecimal`), everything else raises
(`TypeError`), which the callers below catch. -/
def pyFloat : JsonVal → Option ℚ
  | .int n => some (n : ℚ)
  | .float q => some q
  | .bool b => some (if b then 1 else 0)
  | .str s => parseDecimal s
  | _ => none

/-- `y[-1]` on a Python value: last element of a list, last character of a
string, `KeyError` on a dict, `TypeError` on everything else. -/
def lastElem : JsonVal → Except PyError JsonVal
  | .arr xs =>
      match xs.getLast? with
      | some x => .ok x
      | none => .error .indexError
  | .str s =>
      match s.toList.getLast? with
      | some c => .ok (.str (String.mk [c]))
      | none => .error .indexError
  | .obj _ => .error .keyError
  | _ => .error .typeError

/-!  Configuration and startup validation (src/vrmcollector.py lines 31-70). -/

/-- The process environment: the variables the program reads with
`os.getenv`.  `none` = unset. -/
structure Env where
  vrmApi : Option String
  vrmToken : Option String
  vrmUserId : Option String
  influxHost : Option String
  influxPort : Option String
  influxDb : Option String
  pollIntervalSeconds : Option String

/-- `os.getenv(name, default)`. -/
def getenvD (v : Option String) (d : String) : String := v.getD d

/-- `VRM_API = os.getenv("VRM_API", "https://vrmapi.victronenergy.com/v2")`. -/
def vrmApiVal (e : Env) : String := getenvD e.vrmApi "https://vrmapi.victronenergy.com/v2"

/-- `INFLUX_DB = os.getenv("INFLUX_DB", "vrm")`. -/
def influxDbVal (e : Env) : String := getenvD e.influxDb "vrm"

/-- Python truthiness of an optional string config value: `not val` holds for
`None` and for the empty string. -/
def strFalsy : Option String → Bool
  | none => true
  | some s => s == ""

/-- Model of Python `int(s)`: optional surrounding whitespace, optional sign,
one or more digits.  (CPython also accepts underscores between digits;
omitted.)  `none` models an uncaught `ValueError`. -/
def parseIntPy (s : String) : Option Int :=
  let cs := stripWs s.toList
  let (sign, cs) := splitSign cs
  let (ds, rest) := cs.span Char.isDigit
  if ds.isEmpty || !rest.isEmpty then none
  else some (sign * (digitsToNat ds : Int))

/-- `missing = [name for name, val in ((\"VRM_TOKEN\", TOKEN), (\"VRM_USER_ID\",
USER_ID), (\"INFLUX_DB\", INFLUX_DB)) if not val]` (lines 50-55; the
`VRM_SITE_ID` entry is commented out in the source). -/
def missing (e : Env) : List String :=
  ([("VRM_TOKEN", e.vrmToken), ("VRM_USER_ID", e.vrmUserId),
    ("INFLUX_DB", some (influxDbVal e))].filter (fun p => strFalsy p.2)).map Prod.fst

/-- What module-level startup does before `main` is entered. -/
inductive StartupOutcome where
  | exitCode : Nat → StartupOutcome
  | proceed : StartupOutcome
deriving DecidableEq, Repr

/-- Module-level startup (lines 31-70), sequenced as in the source: the
`int(...)` conversions of `INFLUX_PORT` (line 37) and
`POLL_INTERVAL_SECONDS` (line 42) run first and an invalid value raises an
uncaught `ValueError` (process dies with exit code 1); then the
required-config validation exits with status 2 when `missing` is non-empty;
then the InfluxDB client is constructed, any exception there exiting with
status 2.  `influxClientOk` stands for whether that constructor raises.
No network request to the VRM API occurs in any of this: `fetch_installations`
is called only from `main`'s loop, which runs only on `proceed`. -/
def startup (e : Env) (influxClientOk : Bool) : StartupOutcome :=
  match parseIntPy (getenvD e.influxPort "8086") with
  | none => .exitCode 1
  | some _ =>
    match parseIntPy (getenvD e.pollIntervalSeconds "60") with
    | none => .exitCode 1
    | some _ =>
      if !(missing e).isEmpty then .exitCode 2
      else if influxClientOk then .proceed
      else .exitCode 2

/-!  The Fetcher (src/vrmcollector.py lines 61, 75-84). -/

/-- One outbound HTTP request as the program assembles it. -/
structure HttpRequest where
  method : String
  url : String
  headers : List (String × String)
  timeout : Nat
deriving DecidableEq, Repr

/-- `headers = \x7b"X-Authorization": f"Token \x7bTOKEN\x7d"\x7d` (line 61);
`TOKEN` is non-None whenever startup proceeded, so the interpolation of the
token string is total here. -/
def authHeaders (token : String) : List (String × String) :=
  [("X-Authorization", "Token " ++ token)]

/-- The request `fetch_installations` issues (lines 77-79):
`requests.get(f"\x7bVRM_API\x7d/users/\x7bUSER_ID\x7d/installations/",
headers=headers, timeout=timeout)` with `timeout: int = 10` by default. -/
def installationsRequest (e : Env) (userId token : String) (timeout : Nat := 10) : HttpRequest :=
  { method := "GET"
  , url := vrmApiVal e ++ "/users/" ++ userId ++ "/installations/"
  , headers := authHeaders token
  , timeout := timeout }

/-- What the HTTP layer hands back to `fetch_installations`: either a
`RequestException` out of `requests.get` (network failure), or a response
with a status code and a body that either decodes as JSON or does not. -/
inductive FetchOutcome where
  | netError : FetchOutcome
  | httpResponse : Nat → Option JsonVal → FetchOutcome

/-- `r.raise_for_status()` raises `requests.HTTPError` exactly for status
codes in [400, 600). -/
def raiseForStatus (status : Nat) : Bool :=
  400 ≤ status && status < 600

/-- `fetch_installations` (lines 75-84): GET the installation list, raise for
4xx/5xx, decode the body; any `RequestException` — network failure,
`HTTPError` from `raise_for_status`, or `requests.exceptions.JSONDecodeError`
from `r.json()` (a `RequestException` subclass in requests >= 2.27) — is
caught, logged at warning, and converted to `None`. -/
def fetch_installations (out : FetchOutcome) : Option JsonVal :=
  match out with
  | .netError => none
  | .httpResponse status body =>
      if raiseForStatus status then none
      else
        match body with
        | some j => some j
        | none => none

/-!  The series-policy extractor `extract_latest_soc`
(src/vrmcollector.py lines 87-103).  In the source the `def` line 87 is
commented out, which leaves the body (lines 88-103) as unreachable dead code
inside `fetch_installations`; we embed the function as its text reads. -/

/-- `extract_latest_soc(stats)` (lines 87-103):
`stats.get("records", \x7b\x7d).get("soc", \x7b\x7d).get("y")`, `None` if `y`
is falsy, else `float(y[-1])`; every exception on the way (attribute errors
from non-dict intermediates, index/type errors from `y[-1]`, value errors
from `float`) is caught and becomes `None`. -/
def extract_latest_soc (stats : JsonVal) : Option ℚ :=
  let result : Except PyError (Option ℚ) := do
    let records ← pyGetD stats "records" (.obj [])
    let soc_series ← pyGetD records "soc" (.obj [])
    let y ← pyGet soc_series "y"
    if !pyTruthy y then
      return none
    let last ← lastElem y
    match pyFloat last with
    | some q => return (some q)
    | none => throw .valueError
  match result with
  | .ok r => r
  | .error _ => none

/-!  The Extractor and Writer inside `main`'s loop
(src/vrmcollector.py lines 109-162). -/

/-- The point dict built per record (lines 139-148): measurement, tags and
fields.  Tag and field values are Python values: the code stores
`identifier or ""` and `name or ""` unconverted. -/
structure MetricPoint where
  measurement : String
  tags : List (String × JsonVal)
  fields : List (String × JsonVal)

/-- `v is None` for a Python value in this model. -/
def isNull : JsonVal → Bool
  | .null => true
  | _ => false

/-- The per-record mapping (lines 135-148): `site_id = rec.get("idSite")`,
`name = rec.get("name")`, `identifier = rec.get("identifier")`; tag
`idSite` is `str(site_id) if site_id is not None else "unknown"`, tag
`identifier` is `identifier or ""`, field `name` is `name or ""`. -/
def mkInstallationPoint (rec : List (String × JsonVal)) : MetricPoint :=
  let site_id := pyGetOrNone rec "idSite"
  let name := pyGetOrNone rec "name"
  let identifier := pyGetOrNone rec "identifier"
  { measurement := "vrm_installation"
  , tags :=
      [ ("idSite", .str (if isNull site_id then "unknown" else pyStr site_id))
      , ("identifier", pyOr identifier (.str "")) ]
  , fields := [("name", pyOr name (.str ""))] }

/-- `for rec in records: ... rec.get(...)` (lines 133-137) on an arbitrary
(truthy) `records` value: iterating a list stops at the first element that
is not a dict (`AttributeError` from `.get`); iterating a dict yields its
string keys and a string has no `.get` (`AttributeError`); iterating a
string yields characters (`AttributeError` likewise); ints, floats, bools
and None are not iterable (`TypeError`). -/
def recordDicts : List JsonVal → Except PyError (List (List (String × JsonVal)))
  | [] => .ok []
  | .obj kvs :: xs => (recordDicts xs).map (kvs :: ·)
  | _ :: _ => .error .attributeError

/-- Iteration of the `records` value by the extraction loop, as a whole. -/
def extractRecords : JsonVal → Except PyError (List (List (String × JsonVal)))
  | .arr xs => recordDicts xs
  | .obj _ => .error .attributeError
  | .str _ => .error .attributeError
  | _ => .error .typeError

/-- Behaviour of `influx.write_points(points)` (line 152): it returns a
boolean, or raises. -/
inductive WriteBehavior where
  | wrote : Bool → WriteBehavior
  | raises : WriteBehavior
deriving DecidableEq, Repr

/-- What one iteration of `main`'s `while True` loop does, observably:
skip the cycle on fetch failure (line 114), skip it when no records are
found (line 127), call the Writer exactly once with the built batch
(lines 151-158, the write outcome only affecting logging), or let an
exception escape the loop — and `main` — unhandled. -/
inductive CycleOutcome where
  | fetchFail : CycleOutcome
  | noRecords : CycleOutcome
  | wroteBatch : List MetricPoint → WriteBehavior → CycleOutcome
  | exn : PyError → CycleOutcome

/-- `records = installs.get("records") if isinstance(installs, dict) else
None` (line 126). -/
def recordsOf (installs : JsonVal) : JsonVal :=
  match installs with
  | .obj kvs => pyGetOrNone kvs "records"
  | _ => .null

/-- One iteration of `main`'s loop (lines 112-160) given the Fetcher's
result and the Writer's behaviour: `continue` on `installs is None`;
compute `records`; `continue` if falsy; build the point batch (crashing the
loop if the iteration raises — there is no try/except around lines
132-149); write the batch inside try/except; sleep. -/
def cycle (installs : Option JsonVal) (write : WriteBehavior) : CycleOutcome :=
  match installs with
  | none => .fetchFail
  | some body =>
      let records := recordsOf body
      if !pyTruthy records then .noRecords
      else
        match extractRecords records with
        | .error e => .exn e
        | .ok recs => .wroteBatch (recs.map mkInstallationPoint) write

/-- One full cycle from the HTTP layer's outcome. -/
def loopCycle (out : FetchOutcome) (write : WriteBehavior) : CycleOutcome :=
  cycle (fetch_installations out) write

/-- Whether the iteration reaches its `time.sleep(POLL_INTERVAL)` and the
loop continues with the next cycle (every branch but an escaped
exception). -/
def CycleOutcome.continues : CycleOutcome → Bool
  | .exn _ => false
  | _ => true

/-- How long the iteration sleeps before the next cycle, given the
configured `POLL_INTERVAL`: every non-crashing branch sleeps exactly that
(lines 116, 129, 160); an escaped exception never reaches a sleep. -/
def CycleOutcome.sleepSeconds (pollInterval : Nat) : CycleOutcome → Option Nat
  | .exn _ => none
  | _ => some pollInterval

/-- The batches passed to `influx.write_points` during the iteration. -/
def CycleOutcome.writerBatches : CycleOutcome → List (List MetricPoint)
  | .wroteBatch pts _ => [pts]
  | _ => []

/-- Whether the iteration ran the extraction step (lines 126-149) at all: a
fetch failure `continue`s before it. -/
def CycleOutcome.ranExtraction : CycleOutcome → Bool
  | .fetchFail => false
  | _ => true

/-!  The series-policy loop branch (src/vrmcollector.py lines 119-123,
commented out in the source): `soc = extract_latest_soc(installs); if soc is
None: log; time.sleep(POLL_INTERVAL); continue`.  With that branch enabled
the iteration would fall through into the installation-record extraction
below it; `seriesCycle` embeds the loop as the file reads with those lines
uncommented. -/

/-- One iteration of the loop with the commented-out series branch (lines
119-123) enabled. -/
inductive SeriesCycleOutcome where
  | fetchFail : SeriesCycleOutcome
  | noSoc : SeriesCycleOutcome
  | gotSoc : ℚ → CycleOutcome → SeriesCycleOutcome

/-- The iteration: fetch; `extract_latest_soc`; on `None` log, sleep and
`continue` (no write); otherwise proceed into the rest of the loop body. -/
def seriesCycle (installs : Option JsonVal) (write : WriteBehavior) : SeriesCycleOutcome :=
  match installs with
  | none => .fetchFail
  | some stats =>
      match extract_latest_soc stats with
      | none => .noSoc
      | some q => .gotSoc q (cycle (some stats) write)

/-- Batches passed to the Writer during a series-policy iteration. -/
def SeriesCycleOutcome.writerBatches : SeriesCycleOutcome → List (List MetricPoint)
  | .fetchFail => []
  | .noSoc => []
  | .gotSoc _ rest => rest.writerBatches

/-- Strict navigation of the `records -> soc -> y` path: `some` exactly when
every step goes through a dict that has the key.  Used only to state claims
about absent paths. -/
def socY (stats : JsonVal) : Option JsonVal :=
  match stats with
  | .obj kvs =>
      match kvs.lookup "records" with
      | some (.obj rkvs) =>
          match rkvs.lookup "soc" with
          | some (.obj skvs) => skvs.lookup "y"
          | _ => none
      | _ => none
  | _ => none

/-- The series response shape `\x7b"records": \x7b"soc": \x7b"y": ys\x7d\x7d\x7d`. -/
def socStats (ys : List JsonVal) : JsonVal :=
  .obj [("records", .obj [("soc", .obj [("y", .arr ys)])])]

/-- Whether a Python value is a dict. -/
def isObjB : JsonVal → Bool
  | .obj _ => true
  | _ => false

/-- The `records` value an iteration works with, as a function of the
Fetcher's result. -/
def recordsOfFetch : Option JsonVal → JsonVal
  | none => .null
  | some body => recordsOf body

/-- The `records` values on which the extraction loop (lines 132-149) cannot
raise: falsy ones (the `continue` at line 130 fires first) and lists all of
whose elements are dicts. -/
def benignRecords (r : JsonVal) : Bool :=
  !pyTruthy r ||
    (match r with
     | .arr xs => xs.all isObjB
     | _ => false)

/-- A value of a JSON number (int or float); `none` otherwise. -/
def numValue : JsonVal → Option ℚ
  | .int n => some (n : ℚ)
  | .float q => some q
  | _ => none

/-!  Theorems. -/

theorem recordDicts_ok_of_allObj (xs : List JsonVal) (h : ∀ x ∈ xs, isObjB x = true) :
    ∃ kvss, recordDicts xs = .ok kvss ∧ kvss.length = xs.length := by
  induction xs with
  | nil => exact ⟨[], rfl, rfl⟩
  | cons x xs ih =>
      have hx := h x (List.mem_cons_self x xs)
      obtain ⟨kvss, hok, hlen⟩ := ih (fun y hy => h y (List.mem_cons_of_mem x hy))
      cases x with
      | obj kvs => exact ⟨kvs :: kvss, by simp [recordDicts, hok, Except.map], by simp [hlen]⟩
      | null => simp [isObjB] at hx
      | bool b => simp [isObjB] at hx
      | int n => simp [isObjB] at hx
      | float q => simp [isObjB] at hx
      | str s => simp [isObjB] at hx
      | arr ys => simp [isObjB] at hx

/-- C1 counterexample: for the Fetcher response `\x7b"records": [1]\x7d` — a
well-decoded 200 body whose records list contains a non-record element — the
loop iteration raises an unhandled `AttributeError` (`int` has no `.get`)
that escapes the loop body: the iteration does not complete and the loop does
not continue, refuting the claim that no error ever propagates past the loop
body.  The Writer's behaviour is irrelevant: the crash happens before the
write. -/
theorem c1_counterexample_nonrecord_element_crashes :
    loopCycle (.httpResponse 200 (some (.obj [("records", .arr [.int 1])]))) (.wrote true)
      = .exn .attributeError ∧
    (loopCycle (.httpResponse 200 (some (.obj [("records", .arr [.int 1])])))
      (.wrote true)).continues = false := ⟨rfl, rfl⟩

/-- C1 (amended): after startup, an iteration of main's loop completes and
the loop continues — for every Fetcher outcome and every Writer behaviour
(including a raising write, which lines 151-158 catch) — provided the
`records` value it extracts is benign: falsy, or a list all of whose
elements are dicts.  (A truthy non-list `records`, or a records list with a
non-dict element, instead raises an unhandled TypeError/AttributeError out
of lines 132-149, which have no try/except.) -/
theorem c1_amended_loop_survives_benign_records (out : FetchOutcome) (write : WriteBehavior)
    (h : benignRecords (recordsOfFetch (fetch_installations out)) = true) :
    (loopCycle out write).continues = true := by
  unfold loopCycle cycle
  cases hfo : fetch_installations out with
  | none => simp [CycleOutcome.continues]
  | some body =>
      rw [hfo] at h
      simp only [recordsOfFetch] at h
      by_cases ht : pyTruthy (recordsOf body) = true
      · cases hr : recordsOf body with
        | arr xs =>
            rw [hr] at h ht
            simp only [benignRecords, ht, Bool.not_true, Bool.false_or] at h
            obtain ⟨kvss, hok, _⟩ :=
              recordDicts_ok_of_allObj xs (by simpa [List.all_eq_true] using h)
            simp [hr, ht, extractRecords, hok, CycleOutcome.continues]
        | null => rw [hr] at ht; simp [pyTruthy] at ht
        | bool b =>
            rw [hr] at h ht
            simp [benignRecords, ht] at h
        | int n =>
            rw [hr] at h ht
            simp [benignRecords, ht] at h
        | float q =>
            rw [hr] at h ht
            simp [benignRecords, ht] at h
        | str s =>
            rw [hr] at h ht
            simp [benignRecords, ht] at h
        | obj kvs =>
            rw [hr] at h ht
            simp [benignRecords, ht] at h
      · simp only [Bool.not_eq_true] at ht
        simp [ht, CycleOutcome.continues]

/-- C1 witness: the amended theorem applied to a concrete benign cycle — a
200 response with one record dict and a raising Writer. -/
theorem c1_witness :
    benignRecords (recordsOfFetch (fetch_installations
      (.httpResponse 200 (some (.obj [("records", .arr [.obj [("idSite", .int 7)]])]))))) = true ∧
    (loopCycle (.httpResponse 200 (some (.obj [("records", .arr [.obj [("idSite", .int 7)]])])))
      .raises).continues = true :=
  ⟨rfl, c1_amended_loop_survives_benign_records _ _ rfl⟩

/-- C2 counterexample: a response with the non-2xx status 300 (which
`requests` does not auto-follow and `raise_for_status` does not raise for —
it raises only for 4xx/5xx) and a well-decoded body is returned as the
parsed body, not converted to `None`, refuting "every non-2xx HTTP status is
converted into a None result". -/
theorem c2_counterexample_status_300_returned :
    fetch_installations (.httpResponse 300 (some (.obj []))) = some (.obj []) ∧
    (fetch_installations (.httpResponse 300 (some (.obj [])))).isSome = true := ⟨rfl, rfl⟩

/-- C2 (amended): every invocation of `fetch_installations` returns either
the parsed response body or `None`; a network failure, a 4xx or 5xx HTTP
status (the statuses `raise_for_status` raises for), or a body-parse failure
is caught inside the function and converted into `None` — never raised to
the caller; statuses outside [400, 600) that are not auto-redirected (e.g.
300, 304) are not treated as failures. -/
theorem c2_amended_fetch_failures_to_none :
    fetch_installations .netError = none ∧
    (∀ status body, 400 ≤ status → status < 600 →
      fetch_installations (.httpResponse status body) = none) ∧
    (∀ status, fetch_installations (.httpResponse status none) = none) ∧
    (∀ out, fetch_installations out = none ∨
      ∃ status j, out = .httpResponse status (some j) ∧ fetch_installations out = some j) := by
  refine ⟨rfl, ?_, ?_, ?_⟩
  · intro status body h4 h6
    simp [fetch_installations, raiseForStatus, h4, h6]
  · intro status
    by_cases h : raiseForStatus status = true <;> simp [fetch_installations, h]
  · intro out
    cases out with
    | netError => exact .inl rfl
    | httpResponse status body =>
        by_cases h : raiseForStatus status = true
        · exact .inl (by simp [fetch_installations, h])
        · cases body with
          | none => exact .inl (by simp [fetch_installations, h])
          | some j => exact .inr ⟨status, j, rfl, by simp [fetch_installations, h]⟩

/-- C2 witness: the amended theorem applied at a 404 response. -/
theorem c2_witness :
    fetch_installations (.httpResponse 404 (some (.obj []))) = none :=
  c2_amended_fetch_failures_to_none.2.1 404 (some (.obj [])) (by decide) (by decide)

/-- C3: for every well-formed installation-list response — a dict whose
`records` key holds a non-empty list of record dicts — the iteration builds
exactly one MetricPoint per record, each with measurement
"vrm_installation", and passes exactly that batch to the Writer in exactly
one `write_points` call. -/
theorem c3_n_records_one_write (kvs : List (String × JsonVal)) (xs : List JsonVal)
    (write : WriteBehavior)
    (hrec : kvs.lookup "records" = some (.arr xs)) (hne : xs ≠ [])
    (hobj : ∀ x ∈ xs, isObjB x = true) :
    ∃ pts, cycle (some (.obj kvs)) write = .wroteBatch pts write ∧
      pts.length = xs.length ∧
      (∀ pt ∈ pts, pt.measurement = "vrm_installation") ∧
      (cycle (some (.obj kvs)) write).writerBatches = [pts] := by
  obtain ⟨kvss, hok, hlen⟩ := recordDicts_ok_of_allObj xs hobj
  have hro : recordsOf (.obj kvs) = .arr xs := by simp [recordsOf, pyGetOrNone, hrec]
  have ht : pyTruthy (.arr xs) = true := by
    cases xs with
    | nil => exact absurd rfl hne
    | cons a l => rfl
  refine ⟨kvss.map mkInstallationPoint, ?_, ?_, ?_, ?_⟩
  · simp [cycle, hro, ht, extractRecords, hok]
  · simp [hlen]
  · intro pt hpt
    simp only [List.mem_map] at hpt
    obtain ⟨r, _, rfl⟩ := hpt
    rfl
  · simp [cycle, hro, ht, extractRecords, hok, CycleOutcome.writerBatches]

/-- C3 witness: the spec's end-to-end test case — a 3-record installation
list gives one write of a 3-element batch of "vrm_installation" points. -/
theorem c3_witness :
    ∃ pts, cycle (some (.obj [("records", .arr
        [.obj [("idSite", .int 1)], .obj [("idSite", .int 2)], .obj [("idSite", .int 3)]])]))
        (.wrote true) = .wroteBatch pts (.wrote true) ∧
      pts.length = 3 ∧
      (∀ pt ∈ pts, pt.measurement = "vrm_installation") ∧
      (cycle (some (.obj [("records", .arr
        [.obj [("idSite", .int 1)], .obj [("idSite", .int 2)], .obj [("idSite", .int 3)]])]))
        (.wrote true)).writerBatches = [pts] :=
  c3_n_records_one_write
    [("records", .arr [.obj [("idSite", .int 1)], .obj [("idSite", .int 2)],
        .obj [("idSite", .int 3)]])]
    [.obj [("idSite", .int 1)], .obj [("idSite", .int 2)], .obj [("idSite", .int 3)]]
    (.wrote true) rfl (List.cons_ne_nil _ _) (by decide)

/-- C4: for every series response `\x7b"records": \x7b"soc": \x7b"y":
ys\x7d\x7d\x7d` with `ys` a non-empty sequence of JSON numbers,
`extract_latest_soc` yields the value of the last element of `ys`. -/
theorem c4_series_policy_last_value (ys : List JsonVal) (v : JsonVal) (q : ℚ)
    (hnum : ∀ x ∈ ys, (numValue x).isSome = true)
    (hlast : ys.getLast? = some v) (hv : numValue v = some q) :
    extract_latest_soc (socStats ys) = some q := by
  have hne : ys ≠ [] := by intro h; rw [h] at hlast; simp at hlast
  have ht : pyTruthy (.arr ys) = true := by
    cases ys with
    | nil => exact absurd rfl hne
    | cons a l => rfl
  have hfl : pyFloat v = some q := by
    cases v <;> simp [numValue] at hv <;> simp [pyFloat, hv]
  simp [extract_latest_soc, socStats, pyGetD, pyGet, ht, lastElem, hlast, hfl,
    Bind.bind, Except.bind, Pure.pure, Except.pure]

/-- C4 witness: the spec's test case — `y = [10.0, 20.0, 42.5]` yields
soc 42.5 (as the rational 85/2, which the binary double 42.5 denotes
exactly). -/
theorem c4_witness :
    extract_latest_soc (socStats [.float 10, .float 20, .float (85 / 2)]) = some (85 / 2) :=
  c4_series_policy_last_value [.float 10, .float 20, .float (85 / 2)] (.float (85 / 2)) (85 / 2)
    (by decide) rfl rfl

/-- C5: for every series response in which the `records -> soc -> y` path is
absent (at any level, including non-dict intermediates) or the `y` sequence
is empty, `extract_latest_soc` yields "nothing extractable" (`None`), and
the series-policy iteration takes the `continue` at line 123 without calling
the Writer. -/
theorem c5_no_soc_no_write (stats : JsonVal) (write : WriteBehavior)
    (h : socY stats = none ∨ socY stats = some (.arr [])) :
    extract_latest_soc stats = none ∧
    seriesCycle (some stats) write = .noSoc ∧
    (seriesCycle (some stats) write).writerBatches = [] := by
  have hex : extract_latest_soc stats = none := by
    cases stats with
    | null => rfl
    | bool b => rfl
    | int n => rfl
    | float q => rfl
    | str s => rfl
    | arr xs => rfl
    | obj kvs =>
        cases hrec : kvs.lookup "records" with
        | none =>
            simp [extract_latest_soc, pyGetD, pyGet, hrec, pyTruthy,
              Bind.bind, Except.bind, Pure.pure, Except.pure]
        | some r =>
            cases r with
            | obj rkvs =>
                cases hsoc : rkvs.lookup "soc" with
                | none =>
                    simp [extract_latest_soc, pyGetD, pyGet, hrec, hsoc, pyTruthy,
                      Bind.bind, Except.bind, Pure.pure, Except.pure]
                | some s =>
                    cases s with
                    | obj skvs =>
                        cases hy : skvs.lookup "y" with
                        | none =>
                            simp [extract_latest_soc, pyGetD, pyGet, hrec, hsoc, hy, pyTruthy,
                              Bind.bind, Except.bind, Pure.pure, Except.pure]
                        | some yv =>
                            have hyv : yv = .arr [] := by
                              simp [socY, hrec, hsoc, hy] at h
                              exact h
                            subst hyv
                            simp [extract_latest_soc, pyGetD, pyGet, hrec, hsoc, hy, pyTruthy,
                              Bind.bind, Except.bind, Pure.pure, Except.pure]
                    | null =>
                        simp [extract_latest_soc, pyGetD, pyGet, hrec, hsoc,
                          Bind.bind, Except.bind, Pure.pure, Except.pure]
                    | bool b =>
                        simp [extract_latest_soc, pyGetD, pyGet, hrec, hsoc,
                          Bind.bind, Except.bind, Pure.pure, Except.pure]
                    | int n =>
                        simp [extract_latest_soc, pyGetD, pyGet, hrec, hsoc,
                          Bind.bind, Except.bind, Pure.pure, Except.pure]
                    | float q =>
                        simp [extract_latest_soc, pyGetD, pyGet, hrec, hsoc,
                          Bind.bind, Except.bind, Pure.pure, Except.pure]
                    | str t =>
                        simp [extract_latest_soc, pyGetD, pyGet, hrec, hsoc,
                          Bind.bind, Except.bind, Pure.pure, Except.pure]
                    | arr xs =>
                        simp [extract_latest_soc, pyGetD, pyGet, hrec, hsoc,
                          Bind.bind, Except.bind, Pure.pure, Except.pure]
            | null =>
                simp [extract_latest_soc, pyGetD, pyGet, hrec,
                  Bind.bind, Except.bind, Pure.pure, Except.pure]
            | bool b =>
                simp [extract_latest_soc, pyGetD, pyGet, hrec,
                  Bind.bind, Except.bind, Pure.pure, Except.pure]
            | int n =>
                simp [extract_latest_soc, pyGetD, pyGet, hrec,
                  Bind.bind, Except.bind, Pure.pure, Except.pure]
            | float q =>
                simp [extract_latest_soc, pyGetD, pyGet, hrec,
                  Bind.bind, Except.bind, Pure.pure, Except.pure]
            | str t =>
                simp [extract_latest_soc, pyGetD, pyGet, hrec,
                  Bind.bind, Except.bind, Pure.pure, Except.pure]
            | arr xs =>
                simp [extract_latest_soc, pyGetD, pyGet, hrec,
                  Bind.bind, Except.bind, Pure.pure, Except.pure]
  refine ⟨hex, ?_, ?_⟩ <;>
    simp [seriesCycle, hex, SeriesCycleOutcome.writerBatches]

/-- C5 witness: the theorem applied to the concrete response
`\x7b"records": \x7b"soc": \x7b"y": []\x7d\x7d\x7d` with a succeeding
Writer standing by. -/
theorem c5_witness :
    extract_latest_soc (socStats []) = none ∧
    seriesCycle (some (socStats [])) (.wrote true) = .noSoc ∧
    (seriesCycle (some (socStats [])) (.wrote true)).writerBatches = [] :=
  c5_no_soc_no_write (socStats []) (.wrote true) (.inr rfl)

/-- C6: whenever the Fetcher reports failure (`None`), the iteration takes
the `continue` at line 117: the extraction step (lines 126-149) does not
run, the Writer is not called, and the iteration sleeps for the configured
poll interval before the next fetch attempt. -/
theorem c6_fetch_failure_skips_cycle (out : FetchOutcome) (write : WriteBehavior)
    (pollInterval : Nat) (h : fetch_installations out = none) :
    loopCycle out write = .fetchFail ∧
    (loopCycle out write).ranExtraction = false ∧
    (loopCycle out write).writerBatches = [] ∧
    (loopCycle out write).sleepSeconds pollInterval = some pollInterval := by
  have hc : loopCycle out write = .fetchFail := by
    simp [loopCycle, cycle, h]
  exact ⟨hc, by simp [hc, CycleOutcome.ranExtraction],
    by simp [hc, CycleOutcome.writerBatches],
    by simp [hc, CycleOutcome.sleepSeconds]⟩

/-- C6 witness: the theorem applied to a simulated network error with the
default 60-second interval. -/
theorem c6_witness :
    loopCycle .netError (.wrote true) = .fetchFail ∧
    (loopCycle .netError (.wrote true)).ranExtraction = false ∧
    (loopCycle .netError (.wrote true)).writerBatches = [] ∧
    (loopCycle .netError (.wrote true)).sleepSeconds 60 = some 60 :=
  c6_fetch_failure_skips_cycle .netError (.wrote true) 60 rfl

/-- C7 counterexample: with the API credential and target identifier set but
the sink database name environment variable unset, `INFLUX_DB` takes its
default "vrm", the validation list `missing` is empty, and startup proceeds
into the loop instead of exiting with status 2 — refuting the claim that an
unset sink database name exits at startup. -/
theorem c7_counterexample_influxdb_unset_proceeds :
    influxDbVal ⟨none, some "t", some "u", none, none, none, none⟩ = "vrm" ∧
    missing ⟨none, some "t", some "u", none, none, none, none⟩ = [] ∧
    startup ⟨none, some "t", some "u", none, none, none, none⟩ true = .proceed := by
  refine ⟨rfl, rfl, rfl⟩

/-- C7 (amended): if the API credential or the target identifier is unset
(or empty), or the sink database name is set to the empty string — the only
way it can be falsy, since it defaults to "vrm" when unset — then, provided
the port and poll-interval environment values parse as integers (their
`int(...)` conversions at lines 37 and 42 run first and an invalid value
kills the process with an uncaught ValueError instead), the process exits
with status 2 during startup validation, before the loop begins and before
any network call is made (`fetch_installations` is invoked only from the
loop, which runs only on `proceed`). -/
theorem c7_amended_missing_config_exits_2 (e : Env) (influxClientOk : Bool)
    (hport : (parseIntPy (getenvD e.influxPort "8086")).isSome = true)
    (hpoll : (parseIntPy (getenvD e.pollIntervalSeconds "60")).isSome = true)
    (h : strFalsy e.vrmToken = true ∨ strFalsy e.vrmUserId = true ∨ influxDbVal e = "") :
    startup e influxClientOk = .exitCode 2 := by
  have hm : ¬ (missing e).isEmpty = true := by
    simp only [missing, List.filter, List.map]
    rcases h with h | h | h
    · simp [h]
    · cases h1 : strFalsy e.vrmToken <;> simp [h, h1]
    · have h2 : strFalsy (some (influxDbVal e)) = true := by simp [strFalsy, h]
      cases h1 : strFalsy e.vrmToken <;> cases h3 : strFalsy e.vrmUserId <;>
        simp [h1, h2, h3]
  cases hp : parseIntPy (getenvD e.influxPort "8086") with
  | none => rw [hp] at hport; simp at hport
  | some a =>
      cases hq : parseIntPy (getenvD e.pollIntervalSeconds "60") with
      | none => rw [hq] at hpoll; simp at hpoll
      | some b => simp [startup, hp, hq, hm]

/-- C7 witness: the amended theorem applied to an environment with the API
credential unset and everything else defaulted. -/
theorem c7_witness :
    startup ⟨none, none, some "u", none, none, none, none⟩ true = .exitCode 2 :=
  c7_amended_missing_config_exits_2 ⟨none, none, some "u", none, none, none, none⟩ true
    rfl rfl (.inl rfl)

/-- C8 counterexample: at the default base URL with user id "u1" and token
"tok", the request URL is `<base>/users/u1/installations/` — it is not
`<base>/installations/`, and it ends in '/' so it is not of the form
`<base>/installations/<siteId>/stats` either (those end in 's'), refuting
the claimed URL shapes. -/
theorem c8_counterexample_url_shape :
    (installationsRequest ⟨none, some "tok", some "u1", none, none, none, none⟩ "u1" "tok").url
      = "https://vrmapi.victronenergy.com/v2/users/u1/installations/" ∧
    ((installationsRequest ⟨none, some "tok", some "u1", none, none, none, none⟩ "u1" "tok").url
      = vrmApiVal ⟨none, some "tok", some "u1", none, none, none, none⟩ ++ "/installations/"
      → False) ∧
    (installationsRequest ⟨none, some "tok", some "u1", none, none, none, none⟩
      "u1" "tok").url.toList.getLast? = some '/' := by
  refine ⟨rfl, by decide, rfl⟩

/-- C8 (amended): every outbound request issued by the Fetcher is a GET on
`<base>/users/<userId>/installations/`, carries the `X-Authorization`
header with value `Token <token>`, and uses a default timeout of 10. -/
theorem c8_amended_request_shape (e : Env) (userId token : String) :
    (installationsRequest e userId token).method = "GET" ∧
    (installationsRequest e userId token).url
      = vrmApiVal e ++ "/users/" ++ userId ++ "/installations/" ∧
    (installationsRequest e userId token).headers
      = [("X-Authorization", "Token " ++ token)] ∧
    (installationsRequest e userId token).timeout = 10 :=
  ⟨rfl, by simp [installationsRequest, String.append_assoc], rfl, rfl⟩

/-- C9: for every installation record in which the `idSite` key is absent or
holds JSON null (both of which `rec.get("idSite")` renders as Python
`None`), the produced MetricPoint carries the tag `idSite = "unknown"`. -/
theorem c9_absent_idsite_unknown (rec : List (String × JsonVal))
    (h : rec.lookup "idSite" = none ∨ rec.lookup "idSite" = some .null) :
    (mkInstallationPoint rec).tags.lookup "idSite" = some (.str "unknown") := by
  have hn : pyGetOrNone rec "idSite" = .null := by
    rcases h with h | h <;> simp [pyGetOrNone, h]
  simp [mkInstallationPoint, hn, isNull]

/-- C9 witness: the theorem applied to a record with no `idSite` key. -/
theorem c9_witness :
    (mkInstallationPoint [("name", .str "My Site")]).tags.lookup "idSite"
      = some (.str "unknown") :=
  c9_absent_idsite_unknown [("name", .str "My Site")] (.inl rfl)

/-- C10: the per-record mapping treats missing values asymmetrically.  Only
a `None`-valued `site_id` takes the "unknown" branch: any non-null `idSite`
— in particular the falsy 0 — is stringified instead (and none of the falsy
stringifications is "unknown"); whereas for `identifier` (a tag) and `name`
(a field) every falsy value — null, "", 0, False — collapses to "" via
Python `or`, making a present-but-falsy identifier indistinguishable in the
written point from an absent one. -/
theorem c10_falsy_handling_asymmetry :
    (∀ rec : List (String × JsonVal), rec.lookup "idSite" = some (.int 0) →
      (mkInstallationPoint rec).tags.lookup "idSite" = some (.str "0")) ∧
    (∀ (rec : List (String × JsonVal)) (v : JsonVal), rec.lookup "idSite" = some v →
      isNull v = false →
      (mkInstallationPoint rec).tags.lookup "idSite" = some (.str (pyStr v))) ∧
    (∀ v ∈ [JsonVal.int 0, .float 0, .str "", .bool false], pyStr v ≠ "unknown") ∧
    (∀ (rec : List (String × JsonVal)) (v : JsonVal),
      v ∈ [JsonVal.null, .str "", .int 0, .bool false] →
      rec.lookup "identifier" = some v →
      (mkInstallationPoint rec).tags.lookup "identifier" = some (.str "")) ∧
    (∀ (rec : List (String × JsonVal)) (v : JsonVal),
      v ∈ [JsonVal.null, .str "", .int 0, .bool false] →
      rec.lookup "name" = some v →
      (mkInstallationPoint rec).fields.lookup "name" = some (.str "")) ∧
    (∀ (site nm v : JsonVal), v ∈ [JsonVal.null, .str "", .int 0, .bool false] →
      mkInstallationPoint [("idSite", site), ("name", nm), ("identifier", v)]
        = mkInstallationPoint [("idSite", site), ("name", nm)]) := by
  have key : ∀ (rec : List (String × JsonVal)) (v : JsonVal), rec.lookup "idSite" = some v →
      isNull v = false →
      (mkInstallationPoint rec).tags.lookup "idSite" = some (.str (pyStr v)) := by
    intro rec v h hv
    have hg : pyGetOrNone rec "idSite" = v := by simp [pyGetOrNone, h]
    simp [mkInstallationPoint, hg, hv]
  refine ⟨fun rec h => key rec (.int 0) h rfl, key, by decide, ?_, ?_, ?_⟩
  · intro rec v hv h
    have hg : pyGetOrNone rec "identifier" = v := by simp [pyGetOrNone, h]
    have ht : pyTruthy v = false := by
      simp only [List.mem_cons, List.not_mem_nil, or_false] at hv
      rcases hv with rfl | rfl | rfl | rfl <;> rfl
    simp [mkInstallationPoint, hg, pyOr, ht, List.lookup]
  · intro rec v hv h
    have hg : pyGetOrNone rec "name" = v := by simp [pyGetOrNone, h]
    have ht : pyTruthy v = false := by
      simp only [List.mem_cons, List.not_mem_nil, or_false] at hv
      rcases hv with rfl | rfl | rfl | rfl <;> rfl
    simp [mkInstallationPoint, hg, pyOr, ht, List.lookup]
  · intro site nm v hv
    simp only [List.mem_cons, List.not_mem_nil, or_false] at hv
    rcases hv with rfl | rfl | rfl | rfl <;> rfl

/-- C10 witness: the asymmetry at concrete records — `idSite = 0` tags "0",
while an identifier of 0 collapses to the same point as no identifier at
all. -/
theorem c10_witness :
    (mkInstallationPoint [("idSite", .int 0)]).tags.lookup "idSite" = some (.str "0") ∧
    mkInstallationPoint [("idSite", .int 5), ("name", .str "s"), ("identifier", .int 0)]
      = mkInstallationPoint [("idSite", .int 5), ("name", .str "s")] :=
  ⟨c10_falsy_handling_asymmetry.1 [("idSite", .int 0)] rfl,
   c10_falsy_handling_asymmetry.2.2.2.2.2 (.int 5) (.str "s") (.int 0) (by simp)⟩

end VRM
